import Mathlib

/-!
Verification of the sqlai UI orchestration layer.

This file gives a shallow embedding of the client-side orchestration code of
the repository and proves (or refutes) the frozen claims about it:

* the MCP tool-invocation client with retry and exponential backoff
  (src/ui/src/app/api/health/route.ts, function callMCPServerWithRetry);
* the three Next.js route handlers for connect, scan-start/scan-progress and
  query (src/unnamed/part_002, src/unnamed/part_001,
  src/ui/src/app/api/query/route.ts);
* the page-level connection / scan / query state machine
  (src/ui/src/app/page.tsx).

Effectful pieces (fetch, timers, React state) are modelled as explicit state
passing: the environment of a retry loop is a function from attempt numbers to
that attempt's outcome, the poll timer is a boolean field plus the React
effect that installs or clears it, and every handler is a pure function from
the previous page state (and the remote outcome) to the next one.
-/

namespace SqlAI

/-! ## A small model of JavaScript values

JSON-like values as they flow through the route handlers.  The extra
constructor undefined models the JavaScript value undefined, which is distinct
from null and from a missing object key; route code below depends on the
distinction (optional chaining, destructuring throws, truthiness). -/

inductive JVal where
  | undefined
  | nul
  | bool (b : Bool)
  | num (n : Int)
  | str (s : String)
  | obj (fields : List (String × JVal))
  | arr (elems : List JVal)

/-- First-match property lookup in an object's field list; absent keys give
undefined, as in JavaScript. -/
def lookupField : List (String × JVal) → String → JVal
  | [], _ => .undefined
  | (k', v) :: rest, k => if k' = k then v else lookupField rest k

/-- Key-presence test on a field list (the JavaScript in operator on a plain
object). -/
def hasKeyFs (fs : List (String × JVal)) (k : String) : Bool :=
  fs.any (fun p => p.1 == k)

/-- JavaScript truthiness. -/
def JVal.truthy : JVal → Bool
  | .undefined => false
  | .nul => false
  | .bool b => b
  | .num n => n != 0
  | .str s => !s.isEmpty
  | .obj _ => true
  | .arr _ => true

/-- Optional-chaining property access (a?.b): undefined when the receiver is
null or undefined, ordinary lookup on objects, undefined on other
primitives. -/
def JVal.optGet (v : JVal) (k : String) : JVal :=
  match v with
  | .undefined => .undefined
  | .nul => .undefined
  | .obj fs => lookupField fs k
  | _ => .undefined

/-- Plain property access (a.b): throws a TypeError on null and undefined,
otherwise behaves like optGet. -/
def JVal.get (v : JVal) (k : String) : Except String JVal :=
  match v with
  | .undefined => .error "TypeError: cannot read properties of undefined"
  | .nul => .error "TypeError: cannot read properties of null"
  | .obj fs => .ok (lookupField fs k)
  | _ => .ok .undefined

/-- Object destructuring (const \x7b a, b \x7d = v): throws a TypeError on
null and undefined; on an object it exposes the field list; on other
primitives every destructured name comes out undefined, modelled by the empty
field list. -/
def JVal.destructure (v : JVal) : Except String (List (String × JVal)) :=
  match v with
  | .undefined => .error "TypeError: cannot destructure undefined"
  | .nul => .error "TypeError: cannot destructure null"
  | .obj fs => .ok fs
  | _ => .ok []

/-- Rest-spread destructuring (const \x7b type, ...rest \x7d = v) restricted
to the rest object: throws on null and undefined, keeps every field except the
named one on objects, and yields an empty object on other primitives. -/
def JVal.restWithout (v : JVal) (k : String) : Except String (List (String × JVal)) :=
  match v with
  | .undefined => .error "TypeError: cannot destructure undefined"
  | .nul => .error "TypeError: cannot destructure null"
  | .obj fs => .ok (fs.filter (fun p => p.1 ≠ k))
  | _ => .ok []

/-- The guarded membership test result && (k in result) from the query route:
false when the receiver is falsy (short-circuit), a key test on objects, a
TypeError when the in operator is applied to a truthy non-object. -/
def JVal.inCheckGuarded (v : JVal) (k : String) : Except String Bool :=
  match v with
  | .undefined => .ok false
  | .nul => .ok false
  | .bool b => if b then .error "TypeError: in on non-object" else .ok false
  | .num n => if n = 0 then .ok false else .error "TypeError: in on non-object"
  | .str s => if s.isEmpty then .ok false else .error "TypeError: in on non-object"
  | .obj fs => .ok (hasKeyFs fs k)
  | .arr _ => .ok false

/-! ## The tool-invocation client

Model of callMCPServerWithRetry (src/ui/src/app/api/health/route.ts, lines
59-102).  One attempt creates a client, connects, lists the tools, checks the
requested tool is listed — throwing when it is not — and calls it.  Every
throw inside the try block, the tool-not-found throw included, lands in the
same catch clause, which rethrows on the last attempt and otherwise sleeps
2 ^ attempt seconds before the next attempt. -/

inductive McpError where
  | toolNotFound (toolName : String)
  | raised (msg : String)
deriving DecidableEq, Repr

/-- What the remote end does on one attempt: an optional failure while
connecting or listing tools, the tool list returned, and the outcome of the
callTool request itself. -/
structure AttemptEnv where
  sessionError : Option String
  tools : List String
  callOutcome : Except String JVal

/-- One iteration of the try block of callMCPServerWithRetry: connect and
list (may throw), check the tool is listed (throws toolNotFound when absent —
note this throw is inside the try block), then call the tool. -/
def attemptOnce (toolName : String) (e : AttemptEnv) : Except McpError JVal :=
  match e.sessionError with
  | some m => .error (.raised m)
  | none =>
    if e.tools.contains toolName then
      match e.callOutcome with
      | .ok v => .ok v
      | .error m => .error (.raised m)
    else
      .error (.toolNotFound toolName)

/-- Observable events of one call: performing attempt k, or sleeping s
seconds of backoff. -/
inductive Event where
  | attempt (k : Nat)
  | delaySec (s : Nat)
deriving DecidableEq, Repr

/-- The retry loop, indexed by remaining loop fuel so that it is structurally
recursive; the caller passes fuel equal to maxRetries, which is exactly the
number of iterations the source's for loop can make.  Returns none when the
loop falls through without returning (the JavaScript function returns
undefined, possible only when maxRetries is 0), together with the event
trace. -/
def retryAux (toolName : String) (env : Nat → AttemptEnv) (maxRetries : Nat) :
    Nat → Nat → Option (Except McpError JVal) × List Event
  | 0, _ => (none, [])
  | fuel + 1, attempt =>
    if attempt ≤ maxRetries then
      match attemptOnce toolName (env attempt) with
      | .ok v => (some (.ok v), [.attempt attempt])
      | .error e =>
        if attempt = maxRetries then
          (some (.error e), [.attempt attempt])
        else
          let r := retryAux toolName env maxRetries fuel (attempt + 1)
          (r.1, .attempt attempt :: .delaySec (2 ^ attempt) :: r.2)
    else
      (none, [])

/-- callMCPServerWithRetry toolName args maxRetries (the source's default for
maxRetries is 3): run the loop from attempt 1. -/
def callMCPServerWithRetry (toolName : String) (env : Nat → AttemptEnv)
    (maxRetries : Nat) : Option (Except McpError JVal) × List Event :=
  retryAux toolName env maxRetries maxRetries 1

/-- Attempt numbers appearing in a trace, in order. -/
def attemptsOf : List Event → List Nat
  | [] => []
  | .attempt k :: rest => k :: attemptsOf rest
  | .delaySec _ :: rest => attemptsOf rest

/-- Backoff delays appearing in a trace, in order. -/
def delaysOf : List Event → List Nat
  | [] => []
  | .attempt _ :: rest => delaysOf rest
  | .delaySec s :: rest => s :: delaysOf rest

/-- The delay event immediately preceding attempt k in a trace, if any. -/
def delayBeforeAttempt (k : Nat) : List Event → Option Nat
  | .delaySec d :: .attempt j :: rest =>
    if j = k then some d else delayBeforeAttempt k (.attempt j :: rest)
  | _ :: rest => delayBeforeAttempt k rest
  | [] => none

/-- Last event of a trace. -/
def lastEvent : List Event → Option Event
  | [] => none
  | [e] => some e
  | _ :: e :: rest => lastEvent (e :: rest)

/-- The consecutive integers a, a+1, ..., a+c-1. -/
def natsFrom (a : Nat) : Nat → List Nat
  | 0 => []
  | c + 1 => a :: natsFrom (a + 1) c

/-- The trace produced by attempts a, a+1, ..., a+c when every attempt
fails: each non-final attempt is followed by a 2 ^ attempt second delay. -/
def failTrace (a : Nat) : Nat → List Event
  | 0 => [.attempt a]
  | c + 1 => .attempt a :: .delaySec (2 ^ a) :: failTrace (a + 1) c

theorem natsFrom_length (a c : Nat) : (natsFrom a c).length = c := by
  induction c generalizing a with
  | zero => rfl
  | succ c ih => simp [natsFrom, ih]

theorem attemptsOf_failTrace (a c : Nat) :
    attemptsOf (failTrace a c) = natsFrom a (c + 1) := by
  induction c generalizing a with
  | zero => rfl
  | succ c ih => simp [failTrace, attemptsOf, natsFrom, ih]

theorem lastEvent_failTrace (a c : Nat) :
    lastEvent (failTrace a c) = some (.attempt (a + c)) := by
  induction c generalizing a with
  | zero => rfl
  | succ c ih =>
    have hhead : ∃ t, failTrace (a + 1) c = .attempt (a + 1) :: t := by
      cases c <;> exact ⟨_, rfl⟩
    obtain ⟨t, ht⟩ := hhead
    calc lastEvent (failTrace a (c + 1))
        = lastEvent (failTrace (a + 1) c) := by
          rw [failTrace, ht]
          rfl
      _ = some (.attempt (a + 1 + c)) := ih (a + 1)
      _ = some (.attempt (a + (c + 1))) := by
          rw [show a + 1 + c = a + (c + 1) from by omega]

theorem delayBeforeAttempt_failTrace (a c k : Nat) (hak : a < k)
    (hk : k ≤ a + c) :
    delayBeforeAttempt k (failTrace a c) = some (2 ^ (k - 1)) := by
  induction c generalizing a with
  | zero => omega
  | succ c ih =>
    have hhead : ∃ t, failTrace (a + 1) c = .attempt (a + 1) :: t := by
      cases c <;> exact ⟨_, rfl⟩
    obtain ⟨t, ht⟩ := hhead
    rw [failTrace, ht]
    show delayBeforeAttempt k (.delaySec (2 ^ a) :: .attempt (a + 1) :: t)
        = some (2 ^ (k - 1))
    rw [delayBeforeAttempt]
    by_cases hk1 : a + 1 = k
    · rw [if_pos hk1, show k - 1 = a from by omega]
    · rw [if_neg hk1, ← ht]
      exact ih (a + 1) (by omega) (by omega)

/-- Core lemma: when every attempt from a to n fails, the loop performs
attempts a, ..., n with the backoff trace and hands back the final attempt's
outcome unchanged. -/
theorem retryAux_allFail (toolName : String) (env : Nat → AttemptEnv)
    (n : Nat) (c : Nat) :
    ∀ a fuel, 1 ≤ a → a + c = n → c + 1 ≤ fuel →
    (∀ k, 1 ≤ k → k ≤ n → ∃ e, attemptOnce toolName (env k) = .error e) →
    retryAux toolName env n fuel a =
      (some (attemptOnce toolName (env n)), failTrace a c) := by
  induction c with
  | zero =>
    intro a fuel ha han hfuel hfail
    obtain ⟨f, rfl⟩ : ∃ f, fuel = f + 1 := ⟨fuel - 1, by omega⟩
    have han' : a = n := by omega
    obtain ⟨e, he⟩ := hfail a ha (by omega)
    subst han'
    simp [retryAux, he, failTrace]
  | succ c ih =>
    intro a fuel ha han hfuel hfail
    obtain ⟨f, rfl⟩ : ∃ f, fuel = f + 1 := ⟨fuel - 1, by omega⟩
    obtain ⟨e, he⟩ := hfail a ha (by omega)
    have hne : a ≠ n := by omega
    have hrec := ih (a + 1) f (by omega) (by omega) (by omega) hfail
    simp [retryAux, he, Nat.le_of_lt (by omega : a < n), hne, hrec, failTrace]

/-! ## Concrete retry environments used by witnesses and counterexamples -/

/-- A remote service whose sessions succeed and whose tool list carries the
three data-source tools but not the query tool. -/
def envQueryAbsent : Nat → AttemptEnv := fun _ =>
  { sessionError := none
    tools := ["connect_datasource", "scan_datasource", "scan_progress"]
    callOutcome := .ok .nul }

/-- A remote service whose transport fails on every attempt. -/
def envTransportDown : Nat → AttemptEnv := fun _ =>
  { sessionError := some "fetch failed: ECONNREFUSED"
    tools := []
    callOutcome := .error "unreachable" }

/-- C1 counterexample: with the query tool absent from the remote tool list
on every attempt and maxRetries = 3, the call does not fail after a single
attempt with no backoff delay: the trace holds three attempts and two delays,
so the claimed zero-retry behaviour is false at this input. -/
theorem c1_counterexample :
    ¬ ((attemptsOf (callMCPServerWithRetry "query" envQueryAbsent 3).2).length = 1 ∧
       delaysOf (callMCPServerWithRetry "query" envQueryAbsent 3).2 = []) := by
  decide

/-- C1 (amended): a tool name absent from the remote service's tool list
makes each attempt throw toolNotFound, but the throw happens inside the try
block of callMCPServerWithRetry, so it is retried with backoff exactly like a
transient fault: with maxRetries n, n attempts happen, a 2 ^ (k - 1) second
delay precedes each attempt k from 2 to n, and after the final attempt the
toolNotFound error is propagated. -/
theorem c1_toolNotFound_retried (toolName : String) (env : Nat → AttemptEnv)
    (n : Nat) (hn : 1 ≤ n)
    (habsent : ∀ k, 1 ≤ k → k ≤ n →
      (env k).sessionError = none ∧ (env k).tools.contains toolName = false) :
    (callMCPServerWithRetry toolName env n).1 =
      some (.error (.toolNotFound toolName)) ∧
    (attemptsOf (callMCPServerWithRetry toolName env n).2).length = n ∧
    (∀ k, 2 ≤ k → k ≤ n →
      delayBeforeAttempt k (callMCPServerWithRetry toolName env n).2 =
        some (2 ^ (k - 1))) := by
  have hfail : ∀ k, 1 ≤ k → k ≤ n →
      attemptOnce toolName (env k) = .error (.toolNotFound toolName) := by
    intro k hk1 hkn
    obtain ⟨hs, ht⟩ := habsent k hk1 hkn
    simp only [attemptOnce, hs, ht]
    rfl
  have hrun : callMCPServerWithRetry toolName env n =
      (some (attemptOnce toolName (env n)), failTrace 1 (n - 1)) := by
    unfold callMCPServerWithRetry
    exact retryAux_allFail toolName env n (n - 1) 1 n (le_refl 1) (by omega)
      (by omega) (fun k hk1 hkn => ⟨_, hfail k hk1 hkn⟩)
  refine ⟨?_, ?_, ?_⟩
  · rw [hrun, hfail n hn (le_refl n)]
  · rw [hrun]
    show (attemptsOf (failTrace 1 (n - 1))).length = n
    rw [attemptsOf_failTrace, natsFrom_length]
    omega
  · intro k hk2 hkn
    rw [hrun]
    exact delayBeforeAttempt_failTrace 1 (n - 1) k (by omega) (by omega)

/-- C1 amended witness: the amended theorem at the concrete environment with
the query tool absent and maxRetries 3. -/
theorem c1_toolNotFound_retried_witness :
    (1 ≤ 3 ∧
      (∀ k, 1 ≤ k → k ≤ 3 → (envQueryAbsent k).sessionError = none ∧
        (envQueryAbsent k).tools.contains "query" = false)) ∧
    ((callMCPServerWithRetry "query" envQueryAbsent 3).1 =
        some (.error (.toolNotFound "query")) ∧
      (attemptsOf (callMCPServerWithRetry "query" envQueryAbsent 3).2).length = 3 ∧
      (∀ k, 2 ≤ k → k ≤ 3 →
        delayBeforeAttempt k (callMCPServerWithRetry "query" envQueryAbsent 3).2 =
          some (2 ^ (k - 1)))) :=
  ⟨⟨by decide, fun k _ _ => ⟨rfl, rfl⟩⟩,
    c1_toolNotFound_retried "query" envQueryAbsent 3 (by decide)
      (fun k _ _ => ⟨rfl, rfl⟩)⟩

/-- C2 (confirmed): when every attempt throws, callMCPServerWithRetry with
maxRetries n performs exactly n attempts, the delay inserted before attempt k
is 2 ^ (k - 1) seconds for every k from 2 to n, consecutive delays strictly
increase, the trace ends with the final attempt (no delay after it), and the
final attempt's outcome is handed to the caller unchanged. -/
theorem c2_transient_retry_schedule (toolName : String) (env : Nat → AttemptEnv)
    (n : Nat) (hn : 1 ≤ n)
    (hfail : ∀ k, 1 ≤ k → k ≤ n → ∃ e, attemptOnce toolName (env k) = .error e) :
    (callMCPServerWithRetry toolName env n).1 =
      some (attemptOnce toolName (env n)) ∧
    (attemptsOf (callMCPServerWithRetry toolName env n).2).length = n ∧
    (∀ k, 2 ≤ k → k ≤ n →
      delayBeforeAttempt k (callMCPServerWithRetry toolName env n).2 =
        some (2 ^ (k - 1))) ∧
    (∀ k, 2 ≤ k → k + 1 ≤ n → ∃ d d',
      delayBeforeAttempt k (callMCPServerWithRetry toolName env n).2 = some d ∧
      delayBeforeAttempt (k + 1) (callMCPServerWithRetry toolName env n).2 = some d' ∧
      d < d') ∧
    lastEvent (callMCPServerWithRetry toolName env n).2 = some (.attempt n) := by
  have hrun : callMCPServerWithRetry toolName env n =
      (some (attemptOnce toolName (env n)), failTrace 1 (n - 1)) := by
    unfold callMCPServerWithRetry
    exact retryAux_allFail toolName env n (n - 1) 1 n (le_refl 1) (by omega)
      (by omega) hfail
  have hdelay : ∀ k, 2 ≤ k → k ≤ n →
      delayBeforeAttempt k (callMCPServerWithRetry toolName env n).2 =
        some (2 ^ (k - 1)) := by
    intro k hk2 hkn
    rw [hrun]
    exact delayBeforeAttempt_failTrace 1 (n - 1) k (by omega) (by omega)
  refine ⟨?_, ?_, hdelay, ?_, ?_⟩
  · rw [hrun]
  · rw [hrun]
    show (attemptsOf (failTrace 1 (n - 1))).length = n
    rw [attemptsOf_failTrace, natsFrom_length]
    omega
  · intro k hk2 hkn
    refine ⟨2 ^ (k - 1), 2 ^ k, hdelay k hk2 (by omega), ?_, ?_⟩
    · rw [hdelay (k + 1) (by omega) hkn]
      rw [show k + 1 - 1 = k from by omega]
    · exact Nat.pow_lt_pow_right one_lt_two (by omega)
  · rw [hrun]
    show lastEvent (failTrace 1 (n - 1)) = some (.attempt n)
    rw [lastEvent_failTrace, show 1 + (n - 1) = n from by omega]

/-- C2 witness: the schedule theorem at the concrete always-failing transport
environment with the default maxRetries of 3. -/
theorem c2_transient_retry_schedule_witness :
    (1 ≤ 3 ∧
      (∀ k, 1 ≤ k → k ≤ 3 →
        ∃ e, attemptOnce "query" (envTransportDown k) = .error e)) ∧
    ((callMCPServerWithRetry "query" envTransportDown 3).1 =
        some (attemptOnce "query" (envTransportDown 3)) ∧
      (attemptsOf (callMCPServerWithRetry "query" envTransportDown 3).2).length = 3 ∧
      (∀ k, 2 ≤ k → k ≤ 3 →
        delayBeforeAttempt k (callMCPServerWithRetry "query" envTransportDown 3).2 =
          some (2 ^ (k - 1))) ∧
      (∀ k, 2 ≤ k → k + 1 ≤ 3 → ∃ d d',
        delayBeforeAttempt k (callMCPServerWithRetry "query" envTransportDown 3).2 =
          some d ∧
        delayBeforeAttempt (k + 1)
          (callMCPServerWithRetry "query" envTransportDown 3).2 = some d' ∧
        d < d') ∧
      lastEvent (callMCPServerWithRetry "query" envTransportDown 3).2 =
        some (.attempt 3)) :=
  ⟨⟨by decide, fun k _ _ => ⟨.raised "fetch failed: ECONNREFUSED", rfl⟩⟩,
    c2_transient_retry_schedule "query" envTransportDown 3 (by decide)
      (fun k _ _ => ⟨.raised "fetch failed: ECONNREFUSED", rfl⟩)⟩

/-! ## The page-level state machine

Model of the orchestration state in src/ui/src/app/page.tsx: the
DataSourceConnection record (the TypeScript interface at lines 280-289 — note
it has no password field), the connection form, the dataSrcId ref, the two
busy flags, and the scan-polling interval handle.  Each handler becomes a
pure function from the previous state (plus the remote outcome, passed in
explicitly) to the next state. -/

inductive ScanStatus where
  | inProgress
  | completed
  | failed
deriving DecidableEq, Repr

/-- The DataSourceConnection interface of page.tsx (lines 280-289). -/
structure DataSourceConnection where
  type : String
  host : String
  username : String
  connected : Bool
  lastScanTime : Option String
  scanJobId : Option String
  scanProgress : Option Int
  scanStatus : Option ScanStatus
deriving DecidableEq, Repr

/-- The controlled connection form (type, host, username, password). -/
structure ConnectionForm where
  type : String
  host : String
  username : String
  password : String
deriving DecidableEq, Repr

/-- The page state: the connection record, the form, the dataSrcId ref, the
busy flags, and whether the scan-polling interval is installed
(scanPollingInterval.current is non-null). -/
structure PageState where
  dataSource : DataSourceConnection
  connectionForm : ConnectionForm
  dataSrcId : Option String
  isConnecting : Bool
  isScanning : Bool
  pollTimer : Bool
deriving DecidableEq, Repr

/-- The condition of the polling useEffect (page.tsx line 322): an interval
is installed exactly when a scan job id is present and the scan status is
in_progress. -/
def effectCondition (d : DataSourceConnection) : Bool :=
  d.scanJobId.isSome && d.scanStatus == some .inProgress

/-- Re-running the polling useEffect (page.tsx lines 321-369): the cleanup
clears any installed interval, and a new one is installed exactly when the
effect condition holds on the current record. -/
def runScanEffect (s : PageState) : PageState :=
  { s with pollTimer := effectCondition s.dataSource }

/-- handleConnect, success path (page.tsx lines 389-398): store the new
dataSrcId in the ref, replace the connection record with a fresh one built
from the form and the response (connected, no scan fields), blank the form's
password, and drop the connecting flag.  The record never receives the
password: the interface has no such field and none is written. -/
def handleConnectSuccess (s : PageState) (respDataSrcId respLastScanTime : String) :
    PageState :=
  { s with
    dataSrcId := some respDataSrcId
    dataSource :=
      { type := s.connectionForm.type
        host := s.connectionForm.host
        username := s.connectionForm.username
        connected := true
        lastScanTime := some respLastScanTime
        scanJobId := none
        scanProgress := none
        scanStatus := none }
    connectionForm := { s.connectionForm with password := "" }
    isConnecting := false }

/-- handleConnect, failure path (page.tsx lines 399-403): an alert is shown
and the finally clause drops the connecting flag; nothing else changes — in
particular the form, password included, is left as typed. -/
def handleConnectFailure (s : PageState) : PageState :=
  { s with isConnecting := false }

/-- handleDisconnect (page.tsx lines 406-414): the setDataSource(null) call
is commented out in the source, so only the connection form is reset; the
connection record, the dataSrcId ref, the scan state and the timer are all
left untouched, and no remote call is made. -/
def handleDisconnect (s : PageState) : PageState :=
  { s with connectionForm := { type := "", host := "", username := "", password := "" } }

/-- Result of running handleScan: the next state, whether the remote
scan-datasource call was issued, and any alert shown. -/
structure HandleScanResult where
  state : PageState
  remoteCallMade : Bool
  alertMsg : Option String
deriving DecidableEq, Repr

/-- handleScan (page.tsx lines 416-454): when the record is not connected,
alert and return before any fetch; otherwise issue the scan request and, on
success, store the job id with progress 0 and status in_progress and raise
the scanning flag; on failure, alert. -/
def handleScan (s : PageState) (outcome : Except String String) : HandleScanResult :=
  if !s.dataSource.connected then
    { state := s
      remoteCallMade := false
      alertMsg := some "Please connect to a database first" }
  else
    match outcome with
    | .ok jobId =>
      { state :=
          { s with
            dataSource :=
              { s.dataSource with
                scanJobId := some jobId
                scanProgress := some 0
                scanStatus := some .inProgress }
            isScanning := true }
        remoteCallMade := true
        alertMsg := none }
    | .error m =>
      { state := s
        remoteCallMade := true
        alertMsg := some ("Scan failed: " ++ m) }

/-- The setDataSource updater of the poll-response handler (page.tsx lines
336-344): write the reported progress into whatever record is current, and at
progress 100 or more also mark it completed and overwrite lastScanTime with
the response's timestamp.  Nothing here compares the response's job to the
current record's scanJobId. -/
def applyPollUpdate (progress : Int) (timestamp : String)
    (prev : DataSourceConnection) : DataSourceConnection :=
  let updated := { prev with scanProgress := some progress }
  if progress ≥ 100 then
    { updated with scanStatus := some .completed, lastScanTime := some timestamp }
  else
    updated

/-- A poll response arriving with response.ok (page.tsx lines 335-355): apply
the updater to the current record, and at progress 100 or more clear the
interval and drop the scanning flag.  This is also what a late response of an
already-orphaned job does, since the handler never checks the job
identity. -/
def pollResponseOk (s : PageState) (progress : Int) (timestamp : String) : PageState :=
  let s' := { s with dataSource := applyPollUpdate progress timestamp s.dataSource }
  if progress ≥ 100 then
    { s' with pollTimer := false, isScanning := false }
  else
    s'

/-! ## Concrete page states used by witnesses and counterexamples -/

/-- The initial page state (the useState initialisers of page.tsx). -/
def initialState : PageState :=
  { dataSource :=
      { type := "", host := "", username := "", connected := false
        lastScanTime := none, scanJobId := none, scanProgress := none
        scanStatus := none }
    connectionForm := { type := "", host := "", username := "", password := "" }
    dataSrcId := none
    isConnecting := false
    isScanning := false
    pollTimer := false }

/-- A connected state with an active scan of job_1 at progress 30. -/
def connectedScanningState : PageState :=
  { dataSource :=
      { type := "mysql", host := "10.0.0.5:3306", username := "a"
        connected := true, lastScanTime := some "t0"
        scanJobId := some "job_1", scanProgress := some 30
        scanStatus := some .inProgress }
    connectionForm :=
      { type := "mysql", host := "10.0.0.5:3306", username := "a", password := "" }
    dataSrcId := some "ds_1"
    isConnecting := false
    isScanning := true
    pollTimer := true }

/-- A state mid-scan on the first connection, with the form already filled
for a second data source: the setting of the reconnect-during-poll race. -/
def pollingState : PageState :=
  { connectedScanningState with
    connectionForm :=
      { type := "postgres", host := "10.0.0.6:5432", username := "b"
        password := "pw2" } }

/-- The state right after a successful reconnect to ds_2 while job_1 was
polling: the handler replaced the record and the re-run effect cleared the
interval. -/
def reconnectedState : PageState :=
  runScanEffect (handleConnectSuccess pollingState "ds_2" "t1")

/-- A state in which the user has typed credentials and a connect attempt is
in flight. -/
def typedFormState : PageState :=
  { initialState with
    connectionForm :=
      { type := "mysql", host := "10.0.0.5:3306", username := "a"
        password := "hunter2" }
    isConnecting := true }

/-! ## Claims C3, C4, C6, C7, C9 -/

/-- C3 counterexample: after reconnecting to ds_2 while job_1's poll was in
flight, the late poll response (progress 100) does mutate the replacement
connection record — the handler merges it in instead of discarding it, so the
claimed invariance is false at this input. -/
theorem c3_counterexample :
    (pollResponseOk reconnectedState 100 "stale-ts").dataSource ≠
      reconnectedState.dataSource := by
  decide

/-- C3 (amended): a reconnect replaces the record (clearing the scan fields)
and the re-run polling effect cancels the interval and does not reinstall it,
so no further poll ticks begin; but a poll response already in flight for the
orphaned job is not discarded: its handler writes scanProgress into the
replacement record and, at progress 100 or more, also marks the new record
completed and overwrites its lastScanTime with the stale timestamp, because
the updater never compares job identities. -/
theorem c3_stale_poll_merges (s : PageState) (dsid ls : String) (p : Int)
    (t : String) (hp : p ≥ 100) :
    (runScanEffect (handleConnectSuccess s dsid ls)).pollTimer = false ∧
    effectCondition (runScanEffect (handleConnectSuccess s dsid ls)).dataSource
      = false ∧
    (pollResponseOk (runScanEffect (handleConnectSuccess s dsid ls)) p t).dataSource =
      { (runScanEffect (handleConnectSuccess s dsid ls)).dataSource with
          scanProgress := some p
          scanStatus := some .completed
          lastScanTime := some t } ∧
    (pollResponseOk (runScanEffect (handleConnectSuccess s dsid ls)) p t).dataSource ≠
      (runScanEffect (handleConnectSuccess s dsid ls)).dataSource := by
  refine ⟨rfl, rfl, ?_, ?_⟩
  · simp [pollResponseOk, applyPollUpdate, hp]
  · intro h
    have h2 := congrArg DataSourceConnection.scanStatus h
    simp [pollResponseOk, applyPollUpdate, hp, handleConnectSuccess,
      runScanEffect] at h2

/-- C3 amended witness: the amended theorem at the concrete
reconnect-during-poll scenario with a late response at progress 100. -/
theorem c3_stale_poll_merges_witness :
    (100 : Int) ≥ 100 ∧
    ((runScanEffect (handleConnectSuccess pollingState "ds_2" "t1")).pollTimer
        = false ∧
      effectCondition
        (runScanEffect (handleConnectSuccess pollingState "ds_2" "t1")).dataSource
        = false ∧
      (pollResponseOk (runScanEffect (handleConnectSuccess pollingState "ds_2" "t1"))
          100 "stale-ts").dataSource =
        { (runScanEffect (handleConnectSuccess pollingState "ds_2" "t1")).dataSource with
            scanProgress := some 100
            scanStatus := some .completed
            lastScanTime := some "stale-ts" } ∧
      (pollResponseOk (runScanEffect (handleConnectSuccess pollingState "ds_2" "t1"))
          100 "stale-ts").dataSource ≠
        (runScanEffect (handleConnectSuccess pollingState "ds_2" "t1")).dataSource) :=
  ⟨by decide,
    c3_stale_poll_merges pollingState "ds_2" "t1" 100 "stale-ts" (by decide)⟩

/-- C4 (code bug): handleDisconnect in the source has setDataSource(null)
commented out and only resets the form, so at this connected, scanning input
the connection identifier, the connected flag, the scan job state and the
polling timer all survive the disconnect — contradicting the claimed
client-side reset (the one part the code does honour is that no remote call
is made: the handler is a pure local update). -/
theorem c4_disconnect_leaves_connection :
    (handleDisconnect connectedScanningState).dataSrcId = some "ds_1" ∧
    (handleDisconnect connectedScanningState).dataSource.connected = true ∧
    (handleDisconnect connectedScanningState).dataSource.scanJobId = some "job_1" ∧
    (handleDisconnect connectedScanningState).dataSource.scanStatus =
      some .inProgress ∧
    (handleDisconnect connectedScanningState).pollTimer = true ∧
    (handleDisconnect connectedScanningState).connectionForm =
      { type := "", host := "", username := "", password := "" } := by
  decide

/-- C6 (confirmed): a poll response with progress at least 100 marks the job
completed, records the response's timestamp as lastScanTime, clears the
interval, and leaves a state whose polling effect stays off; processing the
same completed response again (and re-running the effect) changes nothing, so
polling after completion is a no-op. -/
theorem c6_scan_completion (s : PageState) (p : Int) (t : String) (hp : p ≥ 100) :
    (runScanEffect (pollResponseOk s p t)).dataSource.scanStatus =
      some .completed ∧
    (runScanEffect (pollResponseOk s p t)).dataSource.scanProgress = some p ∧
    (runScanEffect (pollResponseOk s p t)).dataSource.lastScanTime = some t ∧
    (runScanEffect (pollResponseOk s p t)).pollTimer = false ∧
    (runScanEffect (pollResponseOk s p t)).isScanning = false ∧
    runScanEffect (pollResponseOk (runScanEffect (pollResponseOk s p t)) p t) =
      runScanEffect (pollResponseOk s p t) := by
  simp [runScanEffect, pollResponseOk, applyPollUpdate, effectCondition, hp]

/-- C6 witness: the completion theorem at the concrete scanning state with a
response of progress 100. -/
theorem c6_scan_completion_witness :
    (100 : Int) ≥ 100 ∧
    ((runScanEffect (pollResponseOk connectedScanningState 100 "t9")).dataSource.scanStatus =
        some .completed ∧
      (runScanEffect (pollResponseOk connectedScanningState 100 "t9")).dataSource.scanProgress =
        some 100 ∧
      (runScanEffect (pollResponseOk connectedScanningState 100 "t9")).dataSource.lastScanTime =
        some "t9" ∧
      (runScanEffect (pollResponseOk connectedScanningState 100 "t9")).pollTimer = false ∧
      (runScanEffect (pollResponseOk connectedScanningState 100 "t9")).isScanning = false ∧
      runScanEffect (pollResponseOk
          (runScanEffect (pollResponseOk connectedScanningState 100 "t9")) 100 "t9") =
        runScanEffect (pollResponseOk connectedScanningState 100 "t9")) :=
  ⟨by decide, c6_scan_completion connectedScanningState 100 "t9" (by decide)⟩

/-- C7 (confirmed): when the connection record is not connected, handleScan
alerts and returns before any fetch: the state is unchanged and no remote
call is issued. -/
theorem c7_scan_requires_connection (s : PageState) (outcome : Except String String)
    (h : s.dataSource.connected = false) :
    handleScan s outcome =
      { state := s
        remoteCallMade := false
        alertMsg := some "Please connect to a database first" } := by
  simp [handleScan, h]

/-- C7 witness: scanning from the initial (disconnected) state. -/
theorem c7_scan_requires_connection_witness :
    initialState.dataSource.connected = false ∧
    handleScan initialState (.error "never sent") =
      { state := initialState
        remoteCallMade := false
        alertMsg := some "Please connect to a database first" } :=
  ⟨rfl, c7_scan_requires_connection initialState (.error "never sent") rfl⟩

/-- C9 counterexample: when the connect call completes with a failure, the
typed password is not discarded — the failure path leaves the form, password
included, exactly as typed, so the claimed unconditional discard after call
completion is false at this input. -/
theorem c9_counterexample :
    (handleConnectFailure typedFormState).connectionForm.password ≠ "" := by
  decide

/-- C9 (amended): the password is never stored in the DataSourceConnection
record — the record built by a successful connect is the same whatever
password was typed (and the record type, mirroring the source interface, has
no password field) — and the form's password is blanked immediately after a
successful connect call; after a failed connect call the form retains the
typed password. -/
theorem c9_password_never_in_record (s : PageState) (dsid ls p1 p2 : String) :
    (handleConnectSuccess s dsid ls).connectionForm.password = "" ∧
    (handleConnectSuccess
        { s with connectionForm := { s.connectionForm with password := p1 } }
        dsid ls).dataSource =
      (handleConnectSuccess
        { s with connectionForm := { s.connectionForm with password := p2 } }
        dsid ls).dataSource ∧
    (handleConnectFailure s).connectionForm.password = s.connectionForm.password :=
  ⟨rfl, rfl, rfl⟩

/-! ## The HTTP route handlers

Models of the three POST handlers: connect-datasource (src/unnamed/part_002),
scan-datasource (src/unnamed/part_001) and query
(src/ui/src/app/api/query/route.ts).  Each takes the parsed request body (an
Except, since request.json() can throw) and the outcome of the MCP tool call,
and returns the tool invocation it issued, if any, together with the response
it returned — none models a handler that falls through and returns
undefined. -/

mutual
/-- JavaScript string coercion as performed by template literals. -/
def JVal.display : JVal → String
  | .undefined => "undefined"
  | .nul => "null"
  | .bool b => if b then "true" else "false"
  | .num n => toString n
  | .str s => s
  | .obj _ => "[object Object]"
  | .arr es => JVal.displayList es

/-- Array toString: the elements' coercions joined with commas. -/
def JVal.displayList : List JVal → String
  | [] => ""
  | [e] => JVal.display e
  | e :: e' :: rest => JVal.display e ++ "," ++ JVal.displayList (e' :: rest)
end

/-- The keys of an object value (empty for non-objects). -/
def JVal.keys : JVal → List String
  | .obj fs => fs.map Prod.fst
  | _ => []

/-- An HTTP response produced by a route handler. -/
structure HttpResponse where
  status : Nat
  body : JVal

/-- One run of a route handler: the tool invocation issued, if any, and the
response returned, if any. -/
structure RouteRun where
  call : Option (String × JVal)
  response : Option HttpResponse

/-- The connect-datasource handler (src/unnamed/part_002).  It splits the
body as const (type, ...conn_params) = body — so conn_params is everything in
the body except the type field, whatever the caller sent — invokes
connect_datasource, destructures data_src_id and scan_time out of
result?.structuredContent (throwing into the catch when the envelope is
absent), and answers 200 with the connection summary; every throw is caught
and answered as 500 with the error message.  The now argument stands for
Date.now() in the connectionId. -/
def connectRoute (body : Except String JVal) (outcome : Except String JVal)
    (now : String) : RouteRun :=
  match body with
  | .error e =>
    { call := none
      response := some { status := 500, body := .obj [("error", .str e)] } }
  | .ok b =>
    match b.restWithout "type" with
    | .error e =>
      { call := none
        response := some { status := 500, body := .obj [("error", .str e)] } }
    | .ok conn_params =>
      let ty := b.optGet "type"
      let args : JVal := .obj [("type", ty), ("conn_params", .obj conn_params)]
      match outcome with
      | .error e =>
        { call := some ("connect_datasource", args)
          response := some { status := 500, body := .obj [("error", .str e)] } }
      | .ok result =>
        match (result.optGet "structuredContent").destructure with
        | .error e =>
          { call := some ("connect_datasource", args)
            response := some { status := 500, body := .obj [("error", .str e)] } }
        | .ok fs =>
          { call := some ("connect_datasource", args)
            response := some { status := 200, body := .obj [
               ("success", .bool true),
               ("message", .str ("Successfully connected to " ++ ty.display ++
                 " database at " ++ (lookupField conn_params "host").display)),
               ("connectionId", .str ("conn_" ++ now)),
               ("dataSrcId", lookupField fs "data_src_id"),
               ("lastScanTime", lookupField fs "scan_time")] } }

/-- The scan-datasource handler (src/unnamed/part_001).  A falsy body is
rejected as 400; otherwise dataSrcId is read off the body — undefined when
the field is missing, since only truthiness was checked — and
scan_datasource is invoked.  The handler destructures job_id out of
result?.structuredContent before testing the envelope, so a missing envelope
throws into the catch; with a truthy envelope it answers 200 with the job id
(and 200 null when the envelope is present but falsy). -/
def scanRoute (body : Except String JVal) (outcome : Except String JVal) :
    RouteRun :=
  match body with
  | .error e =>
    { call := none
      response := some { status := 500, body := .obj [("error", .str e)] } }
  | .ok b =>
    if !b.truthy then
      { call := none
        response := some
          { status := 400
            body := .obj [("error", .str "Data source ID is required")] } }
    else
      let args : JVal := .obj [("data_src_id", b.optGet "dataSrcId")]
      match outcome with
      | .error e =>
        { call := some ("scan_datasource", args)
          response := some { status := 500, body := .obj [("error", .str e)] } }
      | .ok result =>
        let sc := result.optGet "structuredContent"
        match sc.destructure with
        | .error e =>
          { call := some ("scan_datasource", args)
            response := some { status := 500, body := .obj [("error", .str e)] } }
        | .ok fs =>
          { call := some ("scan_datasource", args)
            response := some
              { status := 200
                body := if sc.truthy then .obj [("jobId", lookupField fs "job_id")]
                  else .nul } }

/-- The query handler (src/ui/src/app/api/query/route.ts).  A falsy body is
rejected as 400; otherwise dataSrcId and query are read off the body and the
query tool is invoked.  The result is tested with
result && (structuredContent in result): when the test succeeds the handler
answers 200 with the envelope's data and sql, but when it fails the handler
hits an empty else branch and returns nothing at all. -/
def queryRoute (body : Except String JVal) (outcome : Except String JVal) :
    RouteRun :=
  match body with
  | .error e =>
    { call := none
      response := some { status := 500, body := .obj [("error", .str e)] } }
  | .ok b =>
    if !b.truthy then
      { call := none
        response := some
          { status := 400
            body := .obj [("error", .str "Query is required")] } }
    else
      let qry := b.optGet "query"
      let args : JVal := .obj [("data_src_id", b.optGet "dataSrcId"), ("qry", qry)]
      match outcome with
      | .error e =>
        { call := some ("query", args)
          response := some { status := 500, body := .obj [("error", .str e)] } }
      | .ok result =>
        match result.inCheckGuarded "structuredContent" with
        | .error e =>
          { call := some ("query", args)
            response := some { status := 500, body := .obj [("error", .str e)] } }
        | .ok false => { call := some ("query", args), response := none }
        | .ok true =>
          let sc := result.optGet "structuredContent"
          match sc.get "data" with
          | .error e =>
            { call := some ("query", args)
              response := some { status := 500, body := .obj [("error", .str e)] } }
          | .ok data =>
            match sc.get "sql" with
            | .error e =>
              { call := some ("query", args)
                response := some { status := 500, body := .obj [("error", .str e)] } }
            | .ok sql =>
              { call := some ("query", args)
                response := some
                  { status := 200
                    body := .obj [("data", data), ("sql", sql), ("query", qry)] } }

theorem lookupField_not_hasKey (fs : List (String × JVal)) (k : String)
    (h : hasKeyFs fs k = false) : lookupField fs k = .undefined := by
  induction fs with
  | nil => rfl
  | cons p rest ih =>
    obtain ⟨k', v⟩ := p
    rw [hasKeyFs, List.any_cons, Bool.or_eq_false_iff] at h
    obtain ⟨h1, h2⟩ := h
    rw [lookupField, if_neg (by simpa using h1)]
    exact ih h2

/-! ## Claims C5, C8, C10 -/

/-- The JSON body the page's handleConnect sends: the connection form
serialised as typed (page.tsx line 380), whose credential field is named
username. -/
def uiConnectBody : JVal :=
  .obj [("type", .str "mysql"), ("host", .str "10.0.0.5:3306"),
        ("username", .str "a"), ("password", .str "pw")]

/-- The tool arguments the connect route actually builds from that body. -/
def uiConnectArgs : JVal :=
  .obj [("type", .str "mysql"),
        ("conn_params", .obj [("host", .str "10.0.0.5:3306"),
          ("username", .str "a"), ("password", .str "pw")])]

/-- C5 counterexample: for the connect request the UI actually sends, the
connect_datasource invocation's conn_params consists of the body's fields
minus type — host, username and password — so it is not of the claimed exact
shape with keys host, user, password: the key user is absent. -/
theorem c5_counterexample :
    (connectRoute (.ok uiConnectBody) (.error "unused") "0").call =
      some ("connect_datasource", uiConnectArgs) ∧
    (uiConnectArgs.optGet "conn_params").keys = ["host", "username", "password"] ∧
    ¬ "user" ∈ (uiConnectArgs.optGet "conn_params").keys :=
  ⟨rfl, rfl, by decide⟩

/-- C5 (amended): the connect route invokes connect_datasource with
arguments of the shape (type, conn_params) where conn_params is the whole
request body minus the type field — exactly (host, user, password) only when
the caller sends exactly those fields, while the UI sends host, username and
password — and on a successful structured payload it extracts data_src_id
and scan_time, answering 200 with them as dataSrcId and lastScanTime. -/
theorem c5_connect_args_and_extraction (bf : List (String × JVal))
    (x y : JVal) (now : String) :
    (connectRoute (.ok (.obj bf))
        (.ok (.obj [("structuredContent",
          .obj [("data_src_id", x), ("scan_time", y)])])) now).call =
      some ("connect_datasource",
        .obj [("type", lookupField bf "type"),
              ("conn_params", .obj (bf.filter (fun p => p.1 ≠ "type")))]) ∧
    (∃ rb, (connectRoute (.ok (.obj bf))
        (.ok (.obj [("structuredContent",
          .obj [("data_src_id", x), ("scan_time", y)])])) now).response =
        some { status := 200, body := rb } ∧
      rb.optGet "dataSrcId" = x ∧ rb.optGet "lastScanTime" = y) := by
  refine ⟨rfl, ⟨_, rfl, ?_, ?_⟩⟩
  · simp [JVal.optGet, lookupField]
  · simp [JVal.optGet, lookupField]

/-- A query-route body carrying both expected fields. -/
def uiQueryBody : JVal :=
  .obj [("dataSrcId", .str "ds_1"), ("query", .str "top 10 customers")]

/-- A tool result carrying content but no structured-content envelope. -/
def resultNoEnvelope : JVal := .obj [("content", .arr [])]

/-- C8 counterexample: on a tool result without the structured-content
envelope, the query handler issues the invocation but then hits its empty
else branch and returns no response at all — so the claim that every handler
still returns a JSON response (fields, or an error string with a non-2xx
status) is false at this input. -/
theorem c8_counterexample :
    (queryRoute (.ok uiQueryBody) (.ok resultNoEnvelope)).response = none ∧
    (queryRoute (.ok uiQueryBody) (.ok resultNoEnvelope)).call =
      some ("query", .obj [("data_src_id", .str "ds_1"),
        ("qry", .str "top 10 customers")]) :=
  ⟨rfl, rfl⟩

/-- C8 (amended): when the tool result lacks the structured-content
envelope, the connect and scan-start handlers throw while destructuring it
and their catch answers 500 with an error string, but the query handler
returns no response at all (its missing-envelope branch is empty), so the
three handlers do not uniformly answer with a JSON error. -/
theorem c8_missing_envelope (rf : List (String × JVal))
    (h : hasKeyFs rf "structuredContent" = false)
    (bf : List (String × JVal)) (now : String) :
    (queryRoute (.ok (.obj bf)) (.ok (.obj rf))).response = none ∧
    (∃ e, (scanRoute (.ok (.obj bf)) (.ok (.obj rf))).response =
      some { status := 500, body := .obj [("error", .str e)] }) ∧
    (∃ e, (connectRoute (.ok (.obj bf)) (.ok (.obj rf)) now).response =
      some { status := 500, body := .obj [("error", .str e)] }) := by
  have hlook : lookupField rf "structuredContent" = .undefined :=
    lookupField_not_hasKey rf _ h
  refine ⟨?_, ⟨"TypeError: cannot destructure undefined", ?_⟩,
    ⟨"TypeError: cannot destructure undefined", ?_⟩⟩
  · simp [queryRoute, JVal.truthy, JVal.inCheckGuarded, h]
  · simp [scanRoute, JVal.truthy, JVal.optGet, hlook, JVal.destructure]
  · simp [connectRoute, JVal.restWithout, JVal.optGet, hlook, JVal.destructure]

/-- C8 amended witness: the amended theorem at a concrete envelope-less
result and a well-formed query body. -/
theorem c8_missing_envelope_witness :
    hasKeyFs [("content", JVal.nul)] "structuredContent" = false ∧
    ((queryRoute (.ok (.obj [("dataSrcId", JVal.str "ds_1")]))
        (.ok (.obj [("content", JVal.nul)]))).response = none ∧
      (∃ e, (scanRoute (.ok (.obj [("dataSrcId", JVal.str "ds_1")]))
          (.ok (.obj [("content", JVal.nul)]))).response =
        some { status := 500, body := .obj [("error", .str e)] }) ∧
      (∃ e, (connectRoute (.ok (.obj [("dataSrcId", JVal.str "ds_1")]))
          (.ok (.obj [("content", JVal.nul)])) "0").response =
        some { status := 500, body := .obj [("error", .str e)] })) :=
  ⟨rfl, c8_missing_envelope [("content", JVal.nul)] rfl
    [("dataSrcId", JVal.str "ds_1")] "0"⟩

/-- C10 (confirmed): the scan-start and query handlers validate only that
the parsed body is truthy, so any JSON object body — the empty object
included — passes the check even with dataSrcId (and query) missing, and the
handlers still issue the tool invocation with undefined argument values
instead of answering the 400 required-field error. -/
theorem c10_truthy_body_validation (bf : List (String × JVal))
    (outS outQ : Except String JVal)
    (hd : hasKeyFs bf "dataSrcId" = false) (hq : hasKeyFs bf "query" = false) :
    (scanRoute (.ok (.obj bf)) outS).call =
      some ("scan_datasource", .obj [("data_src_id", .undefined)]) ∧
    (∀ r, (scanRoute (.ok (.obj bf)) outS).response = some r → r.status ≠ 400) ∧
    (queryRoute (.ok (.obj bf)) outQ).call =
      some ("query", .obj [("data_src_id", .undefined), ("qry", .undefined)]) ∧
    (∀ r, (queryRoute (.ok (.obj bf)) outQ).response = some r → r.status ≠ 400) := by
  have hargS : (JVal.obj bf).optGet "dataSrcId" = JVal.undefined := by
    simp [JVal.optGet, lookupField_not_hasKey bf _ hd]
  have hargQ : (JVal.obj bf).optGet "query" = JVal.undefined := by
    simp [JVal.optGet, lookupField_not_hasKey bf _ hq]
  refine ⟨?_, ?_, ?_, ?_⟩
  · cases outS with
    | error e => simp [scanRoute, JVal.truthy, hargS]
    | ok result =>
      cases hds : (result.optGet "structuredContent").destructure with
      | error e => simp [scanRoute, JVal.truthy, hargS, hds]
      | ok fs => simp [scanRoute, JVal.truthy, hargS, hds]
  · intro r hr
    cases outS with
    | error e =>
      simp [scanRoute, JVal.truthy] at hr
      subst hr
      show (500 : Nat) ≠ 400
      decide
    | ok result =>
      cases hds : (result.optGet "structuredContent").destructure with
      | error e =>
        simp [scanRoute, JVal.truthy, hds] at hr
        subst hr
        show (500 : Nat) ≠ 400
        decide
      | ok fs =>
        simp [scanRoute, JVal.truthy, hds] at hr
        subst hr
        show (200 : Nat) ≠ 400
        decide
  · cases outQ with
    | error e => simp [queryRoute, JVal.truthy, hargS, hargQ]
    | ok result =>
      cases hic : result.inCheckGuarded "structuredContent" with
      | error e => simp [queryRoute, JVal.truthy, hargS, hargQ, hic]
      | ok b =>
        cases b with
        | false => simp [queryRoute, JVal.truthy, hargS, hargQ, hic]
        | true =>
          cases hdt : (result.optGet "structuredContent").get "data" with
          | error e => simp [queryRoute, JVal.truthy, hargS, hargQ, hic, hdt]
          | ok dv =>
            cases hsq : (result.optGet "structuredContent").get "sql" with
            | error e =>
              simp [queryRoute, JVal.truthy, hargS, hargQ, hic, hdt, hsq]
            | ok sv =>
              simp [queryRoute, JVal.truthy, hargS, hargQ, hic, hdt, hsq]
  · intro r hr
    cases outQ with
    | error e =>
      simp [queryRoute, JVal.truthy] at hr
      subst hr
      show (500 : Nat) ≠ 400
      decide
    | ok result =>
      cases hic : result.inCheckGuarded "structuredContent" with
      | error e =>
        simp [queryRoute, JVal.truthy, hic] at hr
        subst hr
        show (500 : Nat) ≠ 400
        decide
      | ok b =>
        cases b with
        | false => simp [queryRoute, JVal.truthy, hic] at hr
        | true =>
          cases hdt : (result.optGet "structuredContent").get "data" with
          | error e =>
            simp [queryRoute, JVal.truthy, hic, hdt] at hr
            subst hr
            show (500 : Nat) ≠ 400
            decide
          | ok dv =>
            cases hsq : (result.optGet "structuredContent").get "sql" with
            | error e =>
              simp [queryRoute, JVal.truthy, hic, hdt, hsq] at hr
              subst hr
              show (500 : Nat) ≠ 400
              decide
            | ok sv =>
              simp [queryRoute, JVal.truthy, hic, hdt, hsq] at hr
              subst hr
              show (200 : Nat) ≠ 400
              decide

/-- C10 witness: the truthiness theorem at the empty-object body. -/
theorem c10_truthy_body_validation_witness :
    (hasKeyFs ([] : List (String × JVal)) "dataSrcId" = false ∧
      hasKeyFs ([] : List (String × JVal)) "query" = false) ∧
    ((scanRoute (.ok (.obj [])) (.error "ECONNREFUSED")).call =
        some ("scan_datasource", .obj [("data_src_id", .undefined)]) ∧
      (∀ r, (scanRoute (.ok (.obj [])) (.error "ECONNREFUSED")).response =
        some r → r.status ≠ 400) ∧
      (queryRoute (.ok (.obj [])) (.error "ECONNREFUSED")).call =
        some ("query", .obj [("data_src_id", .undefined), ("qry", .undefined)]) ∧
      (∀ r, (queryRoute (.ok (.obj [])) (.error "ECONNREFUSED")).response =
        some r → r.status ≠ 400)) :=
  ⟨⟨rfl, rfl⟩, c10_truthy_body_validation [] (.error "ECONNREFUSED")
    (.error "ECONNREFUSED") rfl rfl⟩

end SqlAI
